import Mathlib

/-!
Verification of the notion_pmo workflow/analytics core.

This file gives a shallow embedding, in Lean, of the stateful workflow
engine and the snapshot/analytics subsystem of the repository, and proves
properties of the embedded definitions.

Modelling conventions:
* The external key-value store is modelled as a structure of total
  functions from keys to optional structured values.  JSON
  serialisation/deserialisation round-trips are identities on the record
  types involved, so records are stored directly.
* Calendar dates ("YYYY-MM-DD" strings manipulated with UTC day
  arithmetic in the source) are modelled as integers counting days; the
  date-string keys of the source are in bijection with day numbers.
* External collaborators (the chat gateway, the task data source, the
  LLM classifiers) are modelled as oracle parameters; gateway-assigned
  message ids are passed in as parameters.
* JavaScript numbers are modelled as `Rat`; `x ?? 0` becomes
  `Option.getD x 0`.
-/

namespace NotionPmo

/-! Section: JavaScript string primitives -/

/-- Model of JavaScript `String.prototype.toLowerCase` (the status
vocabulary below only contains ASCII letters and Japanese characters,
on which `Char.toLower` agrees with JS). -/
def jsToLowerCase (s : String) : String :=
  String.mk (s.data.map Char.toLower)

/-- Helper for `jsIncludes`: does `tok` occur in `l`, scanning left to right? -/
def listContainsSeq (l tok : List Char) : Bool :=
  if tok.isPrefixOf l then true
  else
    match l with
    | [] => false
    | _ :: rest => listContainsSeq rest tok

/-- Model of JavaScript `String.prototype.includes`. -/
def jsIncludes (hay pat : String) : Bool :=
  listContainsSeq hay.data pat.data

/-- Word character of a JavaScript regex (`\w`, i.e. `[A-Za-z0-9_]`). -/
def jsWordChar (c : Char) : Bool :=
  c.isAlphanum || c = '_'

/-- Helper for `jsWordBoundedMatch`: scan `l` keeping the previous
character, looking for an occurrence of `tok` delimited by `\b` on both
sides. -/
def wordBoundedAux (tok : List Char) (prev : Option Char) (l : List Char) : Bool :=
  (tok.isPrefixOf l &&
    (match prev with | none => true | some c => !jsWordChar c) &&
    (match l.drop tok.length with | [] => true | c :: _ => !jsWordChar c)) ||
  (match l with
   | [] => false
   | c :: rest => wordBoundedAux tok (some c) rest)

/-- Does the regex `\btok\b` match somewhere in `s` (for a token made of
word characters, as the numeric markers below are)? -/
def jsWordBoundedMatch (s : String) (tok : String) : Bool :=
  wordBoundedAux tok.data none s.data

/-! Section: Snapshot & analytics engine (src/unnamed/part_000, src/src/notionApi.ts) -/

/-- Status vocabulary `COMPLETED_STATUSES` from src/src/notionApi.ts. -/
def COMPLETED_STATUSES : List String :=
  ["完了", "Done", "Closed", "完了済み", "Completed", "Resolved", "終了", "クローズ"]

/-- Embeds `isCompletedStatus` from src/src/notionApi.ts: a null/absent
status is not completed; otherwise case-insensitive substring match
against the fixed vocabulary. -/
def isCompletedStatus (status : Option String) : Bool :=
  match status with
  | none => false
  | some s => COMPLETED_STATUSES.any fun v =>
      jsIncludes (jsToLowerCase s) (jsToLowerCase v)

/-- One entry of a daily task snapshot (`TaskSnapshot` in
src/unnamed/part_000): id, name, status, story points. -/
structure TaskSnap where
  id : String
  name : String
  status : Option String
  sp : Option Rat
deriving DecidableEq

/-- Lookup in a JavaScript `Map` built with `new Map(list.map(t => [t.id, t]))`:
for duplicate ids the last entry wins. -/
def jsMapGet (l : List TaskSnap) (id : String) : Option TaskSnap :=
  l.foldl (fun acc t => if t.id = id then some t else acc) none

/-- Snapshot store: `kv.get("sprint-task-snapshot:" + sprintId + ":" + dateKey)`
modelled as a function of the sprint id and the day number. -/
def SnapStore : Type := String → Int → Option (List TaskSnap)

/-- Story points completed between a previous and a current snapshot:
the inner loop of `calculateAvgDailySpConsumption` — for each task of the
current snapshot that also appears in the previous one and transitioned
from non-completed to completed, add `task.sp ?? 0`. -/
def pairCompletedSp (cur prev : List TaskSnap) : Rat :=
  cur.foldl
    (fun acc task =>
      match jsMapGet prev task.id with
      | none => acc
      | some prevTask =>
          if isCompletedStatus task.status && !isCompletedStatus prevTask.status then
            acc + task.sp.getD 0
          else acc)
    0

/-- Loop body of `calculateAvgDailySpConsumption` over the list of day
offsets: accumulate `(totalCompletedSp, daysWithData)`, skipping offsets
where either snapshot of the day-pair is missing. -/
def avgConsumptionLoop (kv : SnapStore) (sprintId : String) (today : Int) :
    List Int → Rat × Nat
  | [] => (0, 0)
  | i :: rest =>
    match kv sprintId (today - i), kv sprintId (today - i - 1) with
    | some cur, some prev =>
        let acc := avgConsumptionLoop kv sprintId today rest
        (pairCompletedSp cur prev + acc.1, acc.2 + 1)
    | _, _ => avgConsumptionLoop kv sprintId today rest

/-- Day offsets of the 7 most recent day-pairs (`for (let i = 1; i <= 7; i++)`). -/
def consumptionWindow : List Int := [1, 2, 3, 4, 5, 6, 7]

/-- Embeds `calculateAvgDailySpConsumption` from src/unnamed/part_000
(lines 475-518): over the 7 most recent day-pairs, sum the story points
completed between each pair of existing snapshots; return `none` when no
pair had both snapshots, else the average over the pairs with data. -/
def calculateAvgDailySpConsumption (kv : SnapStore) (sprintId : String)
    (today : Int) : Option (Rat × Nat) :=
  let acc := avgConsumptionLoop kv sprintId today consumptionWindow
  if acc.2 = 0 then none else some (acc.1 / (acc.2 : Rat), acc.2)

/-- Do both snapshots of the day-pair at offset `i` exist? -/
def pairHasData (kv : SnapStore) (sprintId : String) (today i : Int) : Bool :=
  (kv sprintId (today - i)).isSome && (kv sprintId (today - i - 1)).isSome

/-- Story points consumed in the day-pair at offset `i` (0 when a
snapshot is missing; only used on pairs with data). -/
def pairConsumption (kv : SnapStore) (sprintId : String) (today i : Int) : Rat :=
  match kv sprintId (today - i), kv sprintId (today - i - 1) with
  | some cur, some prev => pairCompletedSp cur prev
  | _, _ => 0

/-- Specification-side rendering of the average-daily-consumption rule,
written from the wording of the spec: for each of the 7 most recent day-pairs,
keep the pairs for which both snapshots exist; sum the sizes of items
that transitioned from non-completed to completed in each kept pair and
divide by the number of kept pairs; zero kept pairs means "insufficient
data" (`none`), distinct from a consumption of 0. -/
def specAvgDailyConsumption (kv : SnapStore) (sprintId : String)
    (today : Int) : Option (Rat × Nat) :=
  let valid := consumptionWindow.filter (pairHasData kv sprintId today)
  if valid = [] then none
  else some ((valid.map (pairConsumption kv sprintId today)).sum / (valid.length : Rat),
             valid.length)

/-- One reported item of the weekly diff (id, name, story points). -/
structure WeeklyDiffItem where
  id : String
  name : String
  sp : Option Rat
deriving DecidableEq

/-- Result record of `calculateWeeklyDiff`. -/
structure WeeklyDiffResult where
  periodStart : Int
  periodEnd : Int
  completedTasks : List WeeklyDiffItem
  totalCompletedSp : Rat
  newTasks : List WeeklyDiffItem
  totalNewSp : Rat
deriving DecidableEq

/-- Summed story points of a bucket (`reduce((sum, t) => sum + (t.sp ?? 0), 0)`). -/
def diffSpSum (l : List WeeklyDiffItem) : Rat :=
  l.foldl (fun acc t => acc + t.sp.getD 0) 0

/-- Embeds `calculateWeeklyDiff` from src/unnamed/part_000 (lines
618-676): compare the tasks of today with the snapshot from exactly 7 days
prior; `none` when that snapshot is absent; otherwise bucket items into
completed (non-completed then, and now completed or gone, with the old
size) and new (present now, absent then, with the current size). -/
def calculateWeeklyDiff (kv : SnapStore) (sprintId : String) (today : Int)
    (currentTasks : List TaskSnap) : Option WeeklyDiffResult :=
  match kv sprintId (today - 7) with
  | none => none
  | some oldSnapshot =>
    let completedTasks :=
      (oldSnapshot.filter fun o =>
        !isCompletedStatus o.status &&
        (match jsMapGet currentTasks o.id with
         | none => true
         | some cur => isCompletedStatus cur.status)).map
        fun o => WeeklyDiffItem.mk o.id o.name o.sp
    let newTasks :=
      (currentTasks.filter fun t =>
        !(oldSnapshot.any fun o => o.id == t.id)).map
        fun t => WeeklyDiffItem.mk t.id t.name t.sp
    some ⟨today - 7, today, completedTasks, diffSpSum completedTasks,
          newTasks, diffSpSum newTasks⟩

/-- Specification-side rendering of the weekly diff, written from the
wording of the spec: if the snapshot from exactly 7 days prior is absent the
result is "no data" (`none`); otherwise an item counts as completed when
it was non-completed 7 days ago and is now either completed or no longer
present (reported with its 7-days-ago size), and as new when present
today but absent 7 days ago (reported with its current size); both
buckets carry their item lists and summed sizes. -/
def specWeeklyDiff (kv : SnapStore) (sprintId : String) (today : Int)
    (currentTasks : List TaskSnap) : Option WeeklyDiffResult :=
  match kv sprintId (today - 7) with
  | none => none
  | some oldSnapshot =>
    let presentToday : String → Bool := fun id =>
      currentTasks.any fun t => t.id == id
    let nowCompleted : String → Bool := fun id =>
      match jsMapGet currentTasks id with
      | none => false
      | some cur => isCompletedStatus cur.status
    let completedTasks :=
      (oldSnapshot.filter fun o =>
        !isCompletedStatus o.status &&
        (!presentToday o.id || nowCompleted o.id)).map
        fun o => WeeklyDiffItem.mk o.id o.name o.sp
    let newTasks :=
      (currentTasks.filter fun t =>
        !(oldSnapshot.any fun o => o.id == t.id)).map
        fun t => WeeklyDiffItem.mk t.id t.name t.sp
    some ⟨today - 7, today, completedTasks, diffSpSum completedTasks,
          newTasks, diffSpSum newTasks⟩

/-! Section: Workflow state stores (src/src/index.ts) -/

/-- One proposed Notion mutation (element of `PendingNotionAction.actions`). -/
structure NAction where
  action : String
  pageId : String
  taskName : String
  newValue : String
deriving DecidableEq

/-- Record `PendingNotionAction` from src/src/index.ts, keyed by
(channel, confirmation-message ts). -/
structure PendingNotionAction where
  actions : List NAction
  requestedBy : String
  requestedAt : String
  threadTs : Option String
deriving DecidableEq

/-- Record `PmThreadState` from src/src/index.ts, keyed by date. -/
structure PmThreadState where
  channel : String
  ts : String
  proposalJson : String
  state : String
deriving DecidableEq

/-- Record `ThreadState` from src/src/index.ts, keyed by (channel, ts). -/
structure ThreadState where
  assigneeName : String
  tasks : List TaskSnap
  state : String
  date : String
  channel : String
deriving DecidableEq

/-- Record `StoredReply` from src/src/index.ts (reply-log entries). -/
structure StoredReply where
  text : String
  userId : String
  receivedAt : String
deriving DecidableEq

/-- Record `MentionMessage` from src/src/index.ts. -/
structure MentionMessage where
  role : String
  content : String
deriving DecidableEq

/-- Record `PhoneReminder` from src/src/index.ts. -/
structure PhoneReminder where
  userId : String
  channel : String
  threadTs : String
  createdAt : String
  lastRemindedAt : String
deriving DecidableEq

/-- Value of the phone-reminder DM back-reference
(`savePhoneReminderDm` payload in src/src/index.ts). -/
structure PhoneDmRef where
  userId : String
  channel : String
  threadTs : String
deriving DecidableEq

/-- The shared non-transactional key-value store (`NOTIFY_CACHE`),
restricted to the key families the workflow engine touches.  Each field
models one key prefix of src/src/index.ts; the prefixes are disjoint, so
a structure of independent maps is faithful. -/
structure KVStore where
  /-- Key family `pending-action:{channel}:{ts}`. -/
  pendingAction : String → String → Option PendingNotionAction
  /-- Key family `pending-create-ref:{channel}:{threadTs}` (value: `confirmMsgTs`). -/
  pendingCreateRef : String → String → Option String
  /-- Key family `pm-thread:{date}`. -/
  pmThread : String → Option PmThreadState
  /-- Key family `thread:{channel}:{ts}`. -/
  threadState : String → String → Option ThreadState
  /-- Key family `reply:{channel}:{threadTs}` (absent key reads as `[]`). -/
  replyLog : String → String → List StoredReply
  /-- Key family `mention-history:{channel}:{threadTs}` (absent key reads as `[]`). -/
  mentionHistory : String → String → List MentionMessage
  /-- Key family `phone-reminder:{userId}:{channel}:{threadTs}`. -/
  phoneReminder : String → String → String → Option PhoneReminder
  /-- Key family `phone-reminder-dm:{channel}:{ts}`. -/
  phoneReminderDm : String → String → Option PhoneDmRef

/-- Store with every key absent. -/
def emptyStore : KVStore where
  pendingAction := fun _ _ => none
  pendingCreateRef := fun _ _ => none
  pmThread := fun _ => none
  threadState := fun _ _ => none
  replyLog := fun _ _ => []
  mentionHistory := fun _ _ => []
  phoneReminder := fun _ _ _ => none
  phoneReminderDm := fun _ _ => none

/-- Embeds `savePendingAction` (src/src/index.ts). -/
def savePendingAction (s : KVStore) (channel ts : String)
    (p : PendingNotionAction) : KVStore :=
  { s with pendingAction := fun c t =>
      if c = channel ∧ t = ts then some p else s.pendingAction c t }

/-- Embeds `deletePendingAction` (src/src/index.ts). -/
def deletePendingAction (s : KVStore) (channel ts : String) : KVStore :=
  { s with pendingAction := fun c t =>
      if c = channel ∧ t = ts then none else s.pendingAction c t }

/-- Embeds `savePendingCreateRef` (src/src/index.ts); the stored record is just
its `confirmMsgTs` field. -/
def savePendingCreateRef (s : KVStore) (channel threadTs confirmMsgTs : String) :
    KVStore :=
  { s with pendingCreateRef := fun c t =>
      if c = channel ∧ t = threadTs then some confirmMsgTs
      else s.pendingCreateRef c t }

/-- Embeds `deletePendingCreateRef` (src/src/index.ts). -/
def deletePendingCreateRef (s : KVStore) (channel threadTs : String) : KVStore :=
  { s with pendingCreateRef := fun c t =>
      if c = channel ∧ t = threadTs then none else s.pendingCreateRef c t }

/-- Embeds `savePmThread` (src/src/index.ts). -/
def savePmThread (s : KVStore) (date : String) (pm : PmThreadState) : KVStore :=
  { s with pmThread := fun d => if d = date then some pm else s.pmThread d }

/-- Embeds `saveThreadState` (src/src/index.ts). -/
def saveThreadState (s : KVStore) (channel ts : String) (st : ThreadState) :
    KVStore :=
  { s with threadState := fun c t =>
      if c = channel ∧ t = ts then some st else s.threadState c t }

/-- Embeds `appendReply` (src/src/index.ts): read the log (absent reads as
`[]`), push the reply, write back. -/
def appendReply (s : KVStore) (channel threadTs : String) (r : StoredReply) :
    KVStore :=
  { s with replyLog := fun c t =>
      if c = channel ∧ t = threadTs then s.replyLog channel threadTs ++ [r]
      else s.replyLog c t }

/-- Embeds `getMentionHistory` (src/src/index.ts, lines 654-662). -/
def getMentionHistory (s : KVStore) (channel threadTs : String) :
    List MentionMessage :=
  s.mentionHistory channel threadTs

/-- JavaScript `array.slice(-n)`: the at most `n` last elements. -/
def jsSliceNeg (n : Nat) (l : List α) : List α :=
  l.drop (l.length - n)

/-- Constant `MAX_HISTORY_TURNS` (src/src/index.ts). -/
def MAX_HISTORY_TURNS : Nat := 10

/-- Embeds `appendMentionHistory` from src/src/index.ts (lines 664-686):
read the history, push the user message then the assistant message, keep
only the `MAX_HISTORY_TURNS` most recent entries, write back. -/
def appendMentionHistory (s : KVStore) (channel threadTs : String)
    (userMessage assistantMessage : String) : KVStore :=
  let history := s.mentionHistory channel threadTs ++
    [⟨"user", userMessage⟩, ⟨"assistant", assistantMessage⟩]
  let trimmed := jsSliceNeg MAX_HISTORY_TURNS history
  { s with mentionHistory := fun c t =>
      if c = channel ∧ t = threadTs then trimmed else s.mentionHistory c t }

/-- Embeds `savePhoneReminder` (src/src/index.ts). -/
def savePhoneReminder (s : KVStore) (userId channel threadTs : String)
    (r : PhoneReminder) : KVStore :=
  { s with phoneReminder := fun u c t =>
      if u = userId ∧ c = channel ∧ t = threadTs then some r
      else s.phoneReminder u c t }

/-- Embeds `deletePhoneReminder` (src/src/index.ts). -/
def deletePhoneReminder (s : KVStore) (userId channel threadTs : String) :
    KVStore :=
  { s with phoneReminder := fun u c t =>
      if u = userId ∧ c = channel ∧ t = threadTs then none
      else s.phoneReminder u c t }

/-- Embeds `savePhoneReminderDm` (src/src/index.ts). -/
def savePhoneReminderDm (s : KVStore) (channel ts : String) (r : PhoneDmRef) :
    KVStore :=
  { s with phoneReminderDm := fun c t =>
      if c = channel ∧ t = ts then some r else s.phoneReminderDm c t }

/-! Section: Event handlers (src/unnamed/part_002, src/src/slackInteractions.ts)

Handlers are embedded as pure functions of the store and the event,
returning the updated store together with the list of Notion mutations
they hand to `executeNotionActions` / `executeTaskCreation`.  Messages
posted to the chat gateway carry no store state and are returned where a
claim needs them.  The LLM calls are oracle parameters; gateway-assigned
ids (`chatPostMessage(...).ts` and friends) are passed in as parameters. -/

/-- A `reaction_added` event (the fields `handleReactionAdded` reads). -/
structure ReactionEvent where
  reaction : String
  user : String
  channel : String
  ts : String
deriving DecidableEq

/-- Constant `PHONE_REACTIONS` from src/unnamed/part_002. -/
def PHONE_REACTIONS : List String := ["phone", "telephone_receiver"]

/-- Store effects of `handlePhoneReaction` (src/unnamed/part_002, lines
981-1058): save the reminder and the DM back-reference.  The gateway
interactions (fetching the message, opening the DM, posting it) are
abstracted; `dmChannelId`/`dmTs` are the gateway-assigned ids and
`nowIso` the timestamp the handler computes. -/
def handlePhoneReaction (s : KVStore) (e : ReactionEvent)
    (dmChannelId dmTs nowIso : String) : KVStore :=
  let s1 := savePhoneReminder s e.user e.channel e.ts
    ⟨e.user, e.channel, e.ts, nowIso, nowIso⟩
  savePhoneReminderDm s1 dmChannelId dmTs ⟨e.user, e.channel, e.ts⟩

/-- Actions of a pending record with `action === "create_task"`. -/
def createActionsOf (p : PendingNotionAction) : List NAction :=
  p.actions.filter fun a => a.action = "create_task"

/-- Mutations an approval of `p` executes: the create branch runs
`executeTaskCreation` on every create action, the update branch runs
`executeNotionActions` on the whole list (both in src/unnamed/part_002
lines 1187-1265 and src/src/slackInteractions.ts lines 300-375). -/
def executedOnApproval (p : PendingNotionAction) : List NAction :=
  if createActionsOf p ≠ [] then createActionsOf p else p.actions

/-- The canned full-approval instruction handed to `interpretPmReply`
when a raw approval signal arrives on the daily report. -/
def approvalText : String := "全提案を承認します"

/-- Embeds `handleReactionAdded` from src/unnamed/part_002 (lines
1095-1298).  `interpretPm` is the external `interpretPmReply` classifier
(proposal JSON and reply text to proposed mutations); `today` is
`toJstDateString()`.  Returns the updated store and the mutations handed
to the executors. -/
def handleReactionAdded (interpretPm : String → String → List NAction)
    (today : String) (dmChannelId dmTs nowIso : String)
    (s : KVStore) (e : ReactionEvent) : KVStore × List NAction :=
  if PHONE_REACTIONS.contains e.reaction then
    (handlePhoneReaction s e dmChannelId dmTs nowIso, [])
  else
    match s.phoneReminderDm e.channel e.ts with
    | some dmRef =>
        (deletePhoneReminder s dmRef.userId dmRef.channel dmRef.threadTs, [])
    | none =>
      if e.reaction ≠ "white_check_mark" then (s, [])
      else
        match s.pendingAction e.channel e.ts with
        | none =>
          match s.pmThread today with
          | some pm =>
            if pm.state = "pending" ∧ pm.channel = e.channel ∧ pm.ts = e.ts then
              (savePmThread s today { pm with state := "processed" },
               interpretPm pm.proposalJson approvalText)
            else (s, [])
          | none => (s, [])
        | some pending =>
          let s1 := deletePendingAction s e.channel e.ts
          let s2 := match pending.threadTs with
            | some t => deletePendingCreateRef s1 e.channel t
            | none => s1
          (s2, executedOnApproval pending)

/-- Embeds `handleTaskActionButton` from src/src/slackInteractions.ts
(lines 254-405): look up the pending action by the confirmation message
key; absent means no-op; cancel deletes without executing; approve
executes and then deletes the record and its thread back-reference. -/
def handleTaskActionButton (s : KVStore) (channel messageTs : String)
    (approved : Bool) : KVStore × List NAction :=
  match s.pendingAction channel messageTs with
  | none => (s, [])
  | some pending =>
    let s1 := deletePendingAction s channel messageTs
    let s2 := match pending.threadTs with
      | some t => deletePendingCreateRef s1 channel t
      | none => s1
    if approved then (s2, executedOnApproval pending) else (s2, [])

/-- Embeds `handlePmReportButton` from src/src/slackInteractions.ts
(lines 452-513): re-read the report-thread record for today; act only
when it is still `pending` and matches this message; mark it
`processed` after executing. -/
def handlePmReportButton (interpretPm : String → String → List NAction)
    (today : String) (s : KVStore) (channel messageTs : String) :
    KVStore × List NAction :=
  match s.pmThread today with
  | none => (s, [])
  | some pm =>
    if pm.state ≠ "pending" ∨ pm.channel ≠ channel ∨ pm.ts ≠ messageTs then
      (s, [])
    else
      (savePmThread s today { pm with state := "processed" },
       interpretPm pm.proposalJson approvalText)

/-- Chat messages `handleAssigneeReply` can post back into the thread. -/
inductive ReplyMsg where
  /-- Posted when the reply was accepted (確認できました！今日も頑張りましょう). -/
  | confirmedThanks
  /-- Posted to ask for more detail; the record stays pending (もう少し具体的にお願い！). -/
  | askMoreDetail
  /-- Posted when extra progress was captured (追加情報ありがとうございます！). -/
  | additionalThanks
  /-- Posted to acknowledge casual chat (ありがとうございます！頑張ってくださいね). -/
  | casualThanks
deriving DecidableEq

/-- Outcome of one `evaluateAssigneeReply` call: a verdict, or a thrown
error. -/
def ClassifierResult : Type := Except Unit Bool

/-- Embeds `handleAssigneeReply` from src/unnamed/part_002 (lines
1302-1378).  `classifier` is the external `evaluateAssigneeReply`
quality gate for this call.  In state `replied`, a classifier error
leaves `hasAdditionalProgress` false (log the error, keep going); in
state `pending`, a classifier error sets `isValid` true (fail open). -/
def handleAssigneeReply (classifier : ClassifierResult) (s : KVStore)
    (channel threadTs text user nowIso : String) : KVStore × Option ReplyMsg :=
  match s.threadState channel threadTs with
  | none => (s, none)
  | some st =>
    if st.state = "replied" then
      let hasAdditionalProgress :=
        match classifier with
        | .ok b => b
        | .error _ => false
      if hasAdditionalProgress then
        (appendReply s channel threadTs ⟨text, user, nowIso⟩,
         some .additionalThanks)
      else (s, some .casualThanks)
    else
      let isValid :=
        match classifier with
        | .ok b => b
        | .error _ => true
      if isValid then
        let s1 := appendReply s channel threadTs ⟨text, user, nowIso⟩
        let s2 := saveThreadState s1 channel threadTs { st with state := "replied" }
        (s2, some .confirmedThanks)
      else (s, some .askMoreDetail)

/-- Embeds the thread-state step of `handleMention` (src/unnamed/part_002,
lines 684-696): when the mention lands in a tracked check-in thread, the
message is saved as an assignee reply and the record is marked `replied`
— no quality gate is consulted on this path. -/
def handleMentionThreadStateStep (s : KVStore)
    (channel threadTs text user nowIso : String) : KVStore :=
  match s.threadState channel threadTs with
  | none => s
  | some st =>
    let s1 := appendReply s channel threadTs ⟨text, user, nowIso⟩
    saveThreadState s1 channel threadTs { st with state := "replied" }

/-! Section: The modify flow of `handleMention` as a store-operation trace

To reason about the store "at every point in time" during the modify
flow, the store writes of the flow are listed as primitive operations and the
intermediate stores are materialised. -/

/-- Primitive store writes of the modify flow. -/
inductive StoreOp where
  | delPA (channel ts : String)
  | delRef (channel threadTs : String)
  | putPA (channel ts : String) (p : PendingNotionAction)
  | putRef (channel threadTs confirmMsgTs : String)
  | putHist (channel threadTs userMsg assistantMsg : String)
deriving DecidableEq

/-- Apply one primitive store write. -/
def applyOp (s : KVStore) : StoreOp → KVStore
  | .delPA c ts => deletePendingAction s c ts
  | .delRef c t => deletePendingCreateRef s c t
  | .putPA c ts p => savePendingAction s c ts p
  | .putRef c t confirm => savePendingCreateRef s c t confirm
  | .putHist c t u a => appendMentionHistory s c t u a

/-- Apply a list of store writes left to right. -/
def applyOps (s : KVStore) (ops : List StoreOp) : KVStore :=
  ops.foldl applyOp s

/-- Every store the trace passes through, the initial one included. -/
def traceStates (s : KVStore) : List StoreOp → List KVStore
  | [] => [s]
  | op :: rest => s :: traceStates (applyOp s op) rest

/-- Store writes of the modify flow of `handleMention`
(src/unnamed/part_002), with a pending back-reference present and the
superseded record `oldPending` loaded through it.  The create-intent
branch deletes the stale pending action and back-reference
unconditionally (`if (pendingCreateRef)`, lines 762-768) before saving
the regenerated proposal under the new confirmation message plus the
fresh back-reference (lines 894-903).  The update-intent branch runs the
same cleanup only behind the `pendingCreateRef && pendingUpdateActions`
guard of lines 917-922 — and `pendingUpdateActions` is non-null exactly
when the loaded record held no `create_task` actions (lines 720-739) —
before its save (lines 925-943); when the guard fails, the stale record
is left in place.  Both branches then append the mention history (lines
958-964).  `intentCreate` selects the branch; the `threadTs` field of
the saved record is the originating thread, as in the source. -/
def modifyFlowOps (channel threadTs oldConfirm newConfirm userId nowIso
    userText responseText : String) (newActions : List NAction)
    (intentCreate : Bool) (oldPending : PendingNotionAction) :
    List StoreOp :=
  (if intentCreate = true ∨ createActionsOf oldPending = [] then
    [ StoreOp.delPA channel oldConfirm,
      StoreOp.delRef channel threadTs ]
   else []) ++
  [ .putPA channel newConfirm ⟨newActions, userId, nowIso, some threadTs⟩,
    .putRef channel threadTs newConfirm,
    .putHist channel threadTs userText responseText ]

/-- Is there a live proposal for thread `threadTs` recorded under
confirmation message `ts`? -/
def proposalLive (s : KVStore) (channel ts threadTs : String) : Bool :=
  match s.pendingAction channel ts with
  | some p => p.threadTs == some threadTs
  | none => false

/-- Is there a live PendingAction/back-reference pair for the thread:
a back-reference whose target pending action exists? -/
def pairLive (s : KVStore) (channel threadTs : String) : Bool :=
  match s.pendingCreateRef channel threadTs with
  | some confirmTs => (s.pendingAction channel confirmTs).isSome
  | none => false

/-! Section: Dedup / idempotent notification cache (src/unnamed/part_001) -/

/-- The `NOTIFY_CACHE` slice used by the dedup cache: key to stored hash
together with its absolute expiration instant (`put` with
`expirationTtl` expires the entry `ttlSeconds` after the write). -/
def DedupStore : Type := String → Option (String × Nat)

/-- A read at instant `now`: the stored value while it has not expired. -/
def dedupGet (cache : DedupStore) (now : Nat) (key : String) : Option String :=
  match cache key with
  | some (v, expiry) => if now < expiry then some v else none
  | none => none

/-- Embeds `isDuplicateAndRemember` from src/unnamed/part_001 (lines
20-32): when the stored hash equals the submitted one, report duplicate
and leave the store alone; otherwise store the new hash with the TTL and
report not-duplicate.  Returns the flag and the store after the call. -/
def isDuplicateAndRemember (cache : DedupStore) (now : Nat)
    (key hash : String) (ttlSeconds : Nat) : Bool × DedupStore :=
  if dedupGet cache now key = some hash then (true, cache)
  else
    (false, fun k => if k = key then some (hash, now + ttlSeconds) else cache k)

/-! Section: Retry/backoff wrapper (src/src/sheetsApi.ts) -/

/-- The 4xx test of `withRetry`: does `/\b(400|401|403|404)\b/` match the
error message? -/
def is4xxMessage (msg : String) : Bool :=
  ["400", "401", "403", "404"].any fun tok => jsWordBoundedMatch msg tok

/-- Loop of `withRetry` (src/src/sheetsApi.ts, lines 278-307).  The
wrapped operation is modelled by the outcome of each attempt,
`res : Nat → Except String α` (1-based).  `remaining` counts the
attempts still allowed after the current one, so the stop
condition of the source, `attempt >= maxRetries`, is `remaining = 0` (the caller passes
`maxRetries - attempt` and the two tests agree on natural numbers).
Returns the final outcome and the list of back-off delays slept, in
order. -/
def withRetryLoop (res : Nat → Except String α) :
    Nat → Nat → Nat → Except String α × List Nat
  | attempt, delayMs, remaining =>
    match res attempt with
    | .ok v => (.ok v, [])
    | .error msg =>
      if is4xxMessage msg then (.error msg, [])
      else
        match remaining with
        | 0 => (.error msg, [])
        | r + 1 =>
          let next := withRetryLoop res (attempt + 1) (delayMs * 2) r
          (next.1, delayMs :: next.2)

/-- Embeds `withRetry`: attempts start at 1 with the initial delay, so
`maxRetries - 1` further attempts are allowed; the source defaults are
`maxRetries = 3`, `initialDelayMs = 500`. -/
def withRetry (res : Nat → Except String α) (maxRetries initialDelayMs : Nat) :
    Except String α × List Nat :=
  withRetryLoop res 1 initialDelayMs (maxRetries - 1)

/-! Section: Webhook endpoint preludes (src/unnamed/part_002, src/src/slackInteractions.ts)

The two inbound endpoints are embedded up to the point where a verified
request is handed to its dispatch.  JSON/body parsing is part of the
request model (`parsedEvents` / `payloadParam` are what `JSON.parse` /
`URLSearchParams` produce on the raw body); for the numeric headers the
request model carries the result of `parseInt(header, 10)` as an
`Option Int` (`none` for a missing or non-numeric header, i.e. `NaN`,
whose comparisons are all false, which the `none` branches reproduce).
The HMAC primitive is an oracle `hmac secret message`. -/

/-- The fields of the events payload the prelude of `handleSlackEvents`
inspects. -/
structure EventsPayload where
  ptype : String
  challenge : String
deriving DecidableEq

/-- An inbound request to the events endpoint. -/
structure EventsRequest where
  body : String
  /-- Raw `x-slack-request-timestamp` header (enters the HMAC input). -/
  timestampHeader : String
  /-- Value of `parseInt(timestampHeader, 10)`, `none` for `NaN`. -/
  timestampParsed : Option Int
  signatureHeader : String
  /-- Value of `parseInt(x-slack-retry-num, 10)` when that header is present and
  non-empty, `none` otherwise (and for `NaN`). -/
  retryNumParsed : Option Int
  /-- Result of `JSON.parse(body)`, `none` when the body is not valid JSON. -/
  parsedEvents : Option EventsPayload
deriving DecidableEq

/-- An inbound request to the interactions endpoint. -/
structure InteractionsRequest where
  body : String
  /-- Raw `x-slack-request-timestamp` header (enters the HMAC input). -/
  timestampHeader : String
  /-- Value of `parseInt(timestampHeader, 10)`, `none` for `NaN`. -/
  timestampParsed : Option Int
  signatureHeader : String
  /-- Value of `new URLSearchParams(body).get("payload")`. -/
  payloadParam : Option String
  /-- Whether `JSON.parse(payloadParam)` succeeds. -/
  payloadParses : Bool
deriving DecidableEq

/-- The gateway-redelivery test of the events endpoint:
`retryNum && parseInt(retryNum, 10) > 0`. -/
def retryNumPositive (retryNumParsed : Option Int) : Bool :=
  match retryNumParsed with
  | some n => decide (n > 0)
  | none => false

/-- Replay-window test shared by both endpoints:
`Math.abs(nowSec - parseInt(timestamp, 10)) > 300` (false for `NaN`). -/
def timestampStale (now : Int) (timestampParsed : Option Int) : Bool :=
  match timestampParsed with
  | some t => (now - t).natAbs > 300
  | none => false

/-- Signature test of `verifySlackSignature` (identical in both source
files): the HMAC-SHA256 of `"v0:" + timestamp + ":" + body`, hex-encoded
and prefixed `"v0="`, must equal the signature header. -/
def signatureMatches (hmac : String → String → String) (secret : String)
    (r_timestamp r_body r_signature : String) : Bool :=
  ("v0=" ++ hmac secret ("v0:" ++ r_timestamp ++ ":" ++ r_body)) == r_signature

/-- Outcome of the events endpoint prelude. -/
inductive EventsOutcome where
  /-- Response 400 with body Invalid JSON. -/
  | invalidJson
  /-- Response 200 with the echoed challenge (`url_verification`). -/
  | challengeAck (challenge : String)
  /-- Response 200 ok: gateway redelivery dropped (`X-Slack-Retry-Num > 0`). -/
  | retryDrop
  /-- Response 400 with body Request timestamp too old. -/
  | staleReject
  /-- Response 500: signing secret not configured. -/
  | configMissing
  /-- Response 401 with body Invalid signature. -/
  | badSignature
  /-- Response 200 ok: verified but not an `event_callback`. -/
  | ignoredType
  /-- Response 200 ok: verified `event_callback`, handed to the dispatcher. -/
  | dispatched
deriving DecidableEq

/-- Embeds the prelude of `handleSlackEvents` (src/unnamed/part_002,
lines 1452-1508): parse, answer `url_verification`, drop gateway
retries, replay check, then signature check, then dispatch.  `dispatch`
is the event routing that runs only on a verified `event_callback`; the
store is returned so rejection paths are visibly mutation-free. -/
def handleSlackEvents (hmac : String → String → String)
    (secret : Option String) (now : Int) (dispatch : KVStore → KVStore)
    (s : KVStore) (r : EventsRequest) : EventsOutcome × KVStore :=
  match r.parsedEvents with
  | none => (.invalidJson, s)
  | some p =>
    if p.ptype = "url_verification" then (.challengeAck p.challenge, s)
    else if retryNumPositive r.retryNumParsed then (.retryDrop, s)
    else if timestampStale now r.timestampParsed then (.staleReject, s)
    else
      match secret with
      | none => (.configMissing, s)
      | some sec =>
        if signatureMatches hmac sec r.timestampHeader r.body r.signatureHeader then
          if p.ptype = "event_callback" then (.dispatched, dispatch s)
          else (.ignoredType, s)
        else (.badSignature, s)

/-- Outcome of the interactions endpoint prelude. -/
inductive InteractionsOutcome where
  /-- Response 400 with body Request timestamp too old. -/
  | staleReject
  /-- Response 500: signing secret not configured. -/
  | configMissing
  /-- Response 401 with body Invalid signature. -/
  | badSignature
  /-- Response 400 with body Missing payload. -/
  | missingPayload
  /-- Response 400 with body Invalid payload JSON. -/
  | invalidPayload
  /-- Response 200 ok: verified payload handed to the dispatcher. -/
  | acked
deriving DecidableEq

/-- Embeds the prelude of `handleSlackInteractions`
(src/src/slackInteractions.ts, lines 163-217): replay check first, then
signature check, then payload extraction, then dispatch. -/
def handleSlackInteractions (hmac : String → String → String)
    (secret : Option String) (now : Int) (dispatch : KVStore → KVStore)
    (s : KVStore) (r : InteractionsRequest) : InteractionsOutcome × KVStore :=
  if timestampStale now r.timestampParsed then (.staleReject, s)
  else
    match secret with
    | none => (.configMissing, s)
    | some sec =>
      if signatureMatches hmac sec r.timestampHeader r.body r.signatureHeader then
        match r.payloadParam with
        | none => (.missingPayload, s)
        | some _ =>
          if r.payloadParses then (.acked, dispatch s) else (.invalidPayload, s)
      else (.badSignature, s)

/-- Running a sequence of `appendMentionHistory` calls against one
(channel, thread) key. -/
def runMentionAppends (s : KVStore) (channel threadTs : String)
    (calls : List (String × String)) : KVStore :=
  calls.foldl (fun st call => appendMentionHistory st channel threadTs call.1 call.2) s

/-- The full conversation, as the alternating user/assistant messages of
a call sequence. -/
def mentionFlat : List (String × String) → List MentionMessage
  | [] => []
  | (u, a) :: rest => ⟨"user", u⟩ :: ⟨"assistant", a⟩ :: mentionFlat rest

/-- Store left behind by consuming the pending action saved under
(channel `c`, confirmation message `m`): the record and, when present,
its thread back-reference are deleted.  Both approval channels
(reaction and button) leave exactly this store; the definition only
names that common result for the statements below. -/
def afterApprovalStore (s : KVStore) (c m : String) (p : PendingNotionAction) :
    KVStore :=
  match p.threadTs with
  | some t => deletePendingCreateRef (deletePendingAction s c m) c t
  | none => deletePendingAction s c m

/-- A concrete pending update used to instantiate the approval theorems. -/
def samplePending : PendingNotionAction :=
  ⟨[⟨"update_sp", "pg1", "task A", "5"⟩], "U1", "2026-01-01T00:00:00Z", some "T1"⟩

/-- A concrete store holding `samplePending` under channel "C1",
confirmation message "M1", with its back-reference from thread "T1". -/
def sampleApprovalStore : KVStore :=
  { emptyStore with
    pendingAction := fun c t =>
      if c = "C1" ∧ t = "M1" then some samplePending else none,
    pendingCreateRef := fun c t =>
      if c = "C1" ∧ t = "T1" then some "M1" else none }

/-- A concrete pending report-thread record. -/
def samplePmThread : PmThreadState := ⟨"C2", "M2", "\x7b\x7d", "pending"⟩

/-- A concrete store holding `samplePmThread` for date "D1". -/
def sampleReportStore : KVStore :=
  { emptyStore with
    pmThread := fun d => if d = "D1" then some samplePmThread else none }

/-- A concrete pending task creation used to instantiate the cross
branch of the modify flow. -/
def sampleCreatePending : PendingNotionAction :=
  ⟨[⟨"create_task", "", "task A", "x"⟩], "U1", "2026-01-01T00:00:00Z", some "T1"⟩

/-- A concrete store holding `sampleCreatePending` under channel "C1",
confirmation message "M1", with its back-reference from thread "T1". -/
def sampleCreateStore : KVStore :=
  { emptyStore with
    pendingAction := fun c t =>
      if c = "C1" ∧ t = "M1" then some sampleCreatePending else none,
    pendingCreateRef := fun c t =>
      if c = "C1" ∧ t = "T1" then some "M1" else none }

/-- A concrete check-in thread record still awaiting a reply. -/
def samplePendingThread : ThreadState := ⟨"Alice", [], "pending", "D1", "C3"⟩

/-- A concrete check-in thread record already replied. -/
def sampleRepliedThread : ThreadState := ⟨"Alice", [], "replied", "D1", "C3"⟩

/-- A concrete store tracking `samplePendingThread` under ("C3", "T4"). -/
def samplePendingThreadStore : KVStore :=
  { emptyStore with
    threadState := fun c t =>
      if c = "C3" ∧ t = "T4" then some samplePendingThread else none }

/-- A concrete store tracking `sampleRepliedThread` under ("C3", "T3"). -/
def sampleRepliedThreadStore : KVStore :=
  { emptyStore with
    threadState := fun c t =>
      if c = "C3" ∧ t = "T3" then some sampleRepliedThread else none }

/-- A concrete events-endpoint request carrying a `url_verification`
challenge with a stale timestamp and a signature that cannot match. -/
def sampleChallengeRequest : EventsRequest :=
  ⟨"\x7b\x7d", "0", some 0, "v0=bad", none, some ⟨"url_verification", "chal"⟩⟩

/-! Section: Theorems -/

theorem avgConsumptionLoop_eq (kv : SnapStore) (sprintId : String) (today : Int)
    (l : List Int) :
    avgConsumptionLoop kv sprintId today l =
      (((l.filter (pairHasData kv sprintId today)).map
          (pairConsumption kv sprintId today)).sum,
       (l.filter (pairHasData kv sprintId today)).length) := by
  induction l with
  | nil => simp [avgConsumptionLoop]
  | cons i rest ih =>
    rcases h1 : kv sprintId (today - i) with _ | cur <;>
      rcases h2 : kv sprintId (today - i - 1) with _ | prev <;>
        simp [avgConsumptionLoop, h1, h2, pairHasData, pairConsumption, ih,
          List.filter_cons]

/-- C3: `calculateAvgDailySpConsumption` sums, for each of the 7 most
recent day-pairs, the story points of items that transitioned from
non-completed to completed between the two snapshots of the pair, divides by
the number of day-pairs for which both snapshots exist (missing pairs
are skipped, not counted as zero — so with all 7 pairs present the
result is the total divided by 7), and reports "insufficient data"
(`none`, distinct from a consumption of 0) when no valid pair exists:
the embedded source function coincides with the specification-side
rendering of that rule. -/
theorem calculateAvgDailySpConsumption_spec (kv : SnapStore) (sprintId : String)
    (today : Int) :
    calculateAvgDailySpConsumption kv sprintId today =
      specAvgDailyConsumption kv sprintId today := by
  unfold calculateAvgDailySpConsumption specAvgDailyConsumption
  rw [avgConsumptionLoop_eq]
  by_cases hF : consumptionWindow.filter (pairHasData kv sprintId today) = [] <;>
    simp [hF, List.length_eq_zero]

theorem jsMapGet_isSome (l : List TaskSnap) (id : String) :
    (jsMapGet l id).isSome = l.any fun t => t.id == id := by
  suffices h : ∀ acc : Option TaskSnap,
      (l.foldl (fun acc t => if t.id = id then some t else acc) acc).isSome
        = (acc.isSome || l.any fun t => t.id == id) by
    simpa [jsMapGet] using h none
  induction l with
  | nil => simp
  | cons t rest ih =>
    intro acc
    by_cases h : t.id = id
    · simp [List.foldl_cons, h, ih]
    · have hb : (t.id == id) = false := beq_eq_false_iff_ne.mpr h
      simp [List.foldl_cons, h, ih, hb]

/-- C4: `calculateWeeklyDiff` returns "no data" (`none`) exactly when
the snapshot from 7 days prior is absent, and otherwise reports as
completed every item that was non-completed 7 days ago and is now
completed or no longer present (with its 7-days-ago size), and as new
every item present today but absent 7 days ago (with its current size),
both buckets with their summed sizes: the embedded source function
coincides with the specification-side rendering of that rule. -/
theorem calculateWeeklyDiff_spec (kv : SnapStore) (sprintId : String)
    (today : Int) (currentTasks : List TaskSnap) :
    calculateWeeklyDiff kv sprintId today currentTasks =
      specWeeklyDiff kv sprintId today currentTasks := by
  unfold calculateWeeklyDiff specWeeklyDiff
  cases h : kv sprintId (today - 7) with
  | none => rfl
  | some oldSnapshot =>
    dsimp only
    have hfilter :
        (oldSnapshot.filter fun o =>
          !isCompletedStatus o.status &&
          (match jsMapGet currentTasks o.id with
           | none => true
           | some cur => isCompletedStatus cur.status)) =
        (oldSnapshot.filter fun o =>
          !isCompletedStatus o.status &&
          (!(currentTasks.any fun t => t.id == o.id) ||
           (match jsMapGet currentTasks o.id with
            | none => false
            | some cur => isCompletedStatus cur.status))) := by
      apply List.filter_congr
      intro o _
      rcases hg : jsMapGet currentTasks o.id with _ | cur
      · have hany : (currentTasks.any fun t => t.id == o.id) = false := by
          rw [← jsMapGet_isSome, hg]; rfl
        simp [hany]
      · have hany : (currentTasks.any fun t => t.id == o.id) = true := by
          rw [← jsMapGet_isSome, hg]; rfl
        simp [hany]
    rw [hfilter]

/-- C5: for every dedup key, a second submission of the same hash while
the entry is alive reports duplicate with no store mutation, after a
first submission that reported not-duplicate and stored the hash; a
later submission of a different hash reports not-duplicate and stores
the new hash with the TTL. -/
theorem isDuplicateAndRemember_flags (cache : DedupStore) (t0 t1 t2 ttl : Nat)
    (key h h' : String)
    (h0 : dedupGet cache t0 key ≠ some h)
    (h1 : t1 < t0 + ttl) (h2 : t2 < t0 + ttl) (hne : h' ≠ h) :
    (isDuplicateAndRemember cache t0 key h ttl).1 = false ∧
    (isDuplicateAndRemember (isDuplicateAndRemember cache t0 key h ttl).2
        t1 key h ttl).1 = true ∧
    (isDuplicateAndRemember (isDuplicateAndRemember cache t0 key h ttl).2
        t1 key h ttl).2 = (isDuplicateAndRemember cache t0 key h ttl).2 ∧
    (isDuplicateAndRemember
        (isDuplicateAndRemember (isDuplicateAndRemember cache t0 key h ttl).2
          t1 key h ttl).2 t2 key h' ttl).1 = false ∧
    (isDuplicateAndRemember
        (isDuplicateAndRemember (isDuplicateAndRemember cache t0 key h ttl).2
          t1 key h ttl).2 t2 key h' ttl).2 key = some (h', t2 + ttl) := by
  have e1 : isDuplicateAndRemember cache t0 key h ttl =
      (false, fun k => if k = key then some (h, t0 + ttl) else cache k) := by
    simp [isDuplicateAndRemember, h0]
  have hg1 : dedupGet (fun k => if k = key then some (h, t0 + ttl) else cache k)
      t1 key = some h := by
    simp [dedupGet, h1]
  have e2 : isDuplicateAndRemember
      (fun k => if k = key then some (h, t0 + ttl) else cache k) t1 key h ttl =
      (true, fun k => if k = key then some (h, t0 + ttl) else cache k) := by
    simp [isDuplicateAndRemember, hg1]
  have hg2 : dedupGet (fun k => if k = key then some (h, t0 + ttl) else cache k)
      t2 key = some h := by
    simp [dedupGet, h2]
  have e3 : isDuplicateAndRemember
      (fun k => if k = key then some (h, t0 + ttl) else cache k) t2 key h' ttl =
      (false, fun k => if k = key then some (h', t2 + ttl) else
        (if k = key then some (h, t0 + ttl) else cache k)) := by
    have : dedupGet (fun k => if k = key then some (h, t0 + ttl) else cache k)
        t2 key ≠ some h' := by
      rw [hg2]
      exact fun hc => hne (Option.some.inj hc).symm
    simp [isDuplicateAndRemember, this]
  refine ⟨by rw [e1], ?_, ?_, ?_, ?_⟩
  · rw [e1]; rw [e2]
  · rw [e1]; rw [e2]
  · rw [e1]; rw [e2]; rw [e3]
  · rw [e1]; rw [e2]; rw [e3]; simp

/-- Witness for C5 at a concrete input: empty cache, key "sprint:s1",
hashes "a" then "a" then "b", TTL 3600. -/
theorem isDuplicateAndRemember_flags_witness :
    (isDuplicateAndRemember (fun _ => none) 0 "sprint:s1" "a" 3600).1 = false ∧
    (isDuplicateAndRemember
        (isDuplicateAndRemember (fun _ => none) 0 "sprint:s1" "a" 3600).2
        60 "sprint:s1" "a" 3600).1 = true ∧
    (isDuplicateAndRemember
        (isDuplicateAndRemember (fun _ => none) 0 "sprint:s1" "a" 3600).2
        60 "sprint:s1" "a" 3600).2 =
      (isDuplicateAndRemember (fun _ => none) 0 "sprint:s1" "a" 3600).2 ∧
    (isDuplicateAndRemember
        (isDuplicateAndRemember
          (isDuplicateAndRemember (fun _ => none) 0 "sprint:s1" "a" 3600).2
          60 "sprint:s1" "a" 3600).2 120 "sprint:s1" "b" 3600).1 = false ∧
    (isDuplicateAndRemember
        (isDuplicateAndRemember
          (isDuplicateAndRemember (fun _ => none) 0 "sprint:s1" "a" 3600).2
          60 "sprint:s1" "a" 3600).2 120 "sprint:s1" "b" 3600).2 "sprint:s1"
      = some ("b", 120 + 3600) :=
  isDuplicateAndRemember_flags (fun _ => none) 0 60 120 3600 "sprint:s1" "a" "b"
    (by simp [dedupGet]) (by decide) (by decide) (by decide)

theorem jsSliceNeg_append (n : Nat) (xs ys : List α) :
    jsSliceNeg n (jsSliceNeg n xs ++ ys) = jsSliceNeg n (xs ++ ys) := by
  by_cases hxn : xs.length ≤ n
  · unfold jsSliceNeg
    have hz : xs.length - n = 0 := Nat.sub_eq_zero_of_le hxn
    simp [hz]
  · unfold jsSliceNeg
    have key : xs ++ ys
        = xs.take (xs.length - n) ++ (xs.drop (xs.length - n) ++ ys) := by
      rw [← List.append_assoc, List.take_append_drop]
    rw [key]
    have harith : (xs.take (xs.length - n) ++ (xs.drop (xs.length - n) ++ ys)).length - n
        = (xs.take (xs.length - n)).length
          + ((xs.drop (xs.length - n) ++ ys).length - n) := by
      simp [List.length_append, List.length_take, List.length_drop]
      omega
    rw [harith, List.drop_append]

theorem jsSliceNeg_length_le (n : Nat) (l : List α) :
    (jsSliceNeg n l).length ≤ n := by
  simp [jsSliceNeg]
  omega

theorem runMentionAppends_invariant (channel threadTs : String) :
    ∀ (calls : List (String × String)) (s : KVStore) (H : List MentionMessage),
      s.mentionHistory channel threadTs = jsSliceNeg MAX_HISTORY_TURNS H →
      (runMentionAppends s channel threadTs calls).mentionHistory channel threadTs
        = jsSliceNeg MAX_HISTORY_TURNS (H ++ mentionFlat calls) := by
  intro calls
  induction calls with
  | nil => intro s H hs; simpa [runMentionAppends, mentionFlat] using hs
  | cons call rest ih =>
    intro s H hs
    rcases call with ⟨u, a⟩
    have hstep : (appendMentionHistory s channel threadTs u a).mentionHistory
        channel threadTs
        = jsSliceNeg MAX_HISTORY_TURNS
            (H ++ [⟨"user", u⟩, ⟨"assistant", a⟩]) := by
      simp [appendMentionHistory, hs, jsSliceNeg_append]
    have hfold : runMentionAppends s channel threadTs ((u, a) :: rest)
        = runMentionAppends (appendMentionHistory s channel threadTs u a)
            channel threadTs rest := rfl
    rw [hfold, ih _ _ hstep, mentionFlat, List.append_assoc]
    rfl

/-- C10: for every (channel, thread) key, after any sequence of
`appendMentionHistory` calls the stored history read back by
`getMentionHistory` is exactly the `MAX_HISTORY_TURNS = 10` most recent
messages of the full alternating user/assistant conversation, in order
— in particular it never exceeds 10 messages. -/
theorem appendMentionHistory_bounded (channel threadTs : String)
    (calls : List (String × String)) :
    getMentionHistory (runMentionAppends emptyStore channel threadTs calls)
        channel threadTs
      = jsSliceNeg MAX_HISTORY_TURNS (mentionFlat calls) ∧
    (getMentionHistory (runMentionAppends emptyStore channel threadTs calls)
        channel threadTs).length ≤ MAX_HISTORY_TURNS := by
  have h := runMentionAppends_invariant channel threadTs calls emptyStore []
    (by simp [emptyStore, jsSliceNeg])
  simp only [List.nil_append] at h
  exact ⟨h, by rw [getMentionHistory, h]; exact jsSliceNeg_length_le _ _⟩

theorem withRetryLoop_ok {α : Type} (res : Nat → Except String α)
    (a d r : Nat) (v : α) (h : res a = .ok v) :
    withRetryLoop res a d r = (.ok v, []) := by
  unfold withRetryLoop
  rw [h]

theorem withRetryLoop_err4xx {α : Type} (res : Nat → Except String α)
    (a d r : Nat) (msg : String) (h : res a = .error msg)
    (h4 : is4xxMessage msg = true) :
    withRetryLoop res a d r = (.error msg, []) := by
  unfold withRetryLoop
  rw [h]
  simp [h4]

theorem withRetryLoop_err_exhaust {α : Type} (res : Nat → Except String α)
    (a d : Nat) (msg : String) (h : res a = .error msg)
    (h4 : is4xxMessage msg = false) :
    withRetryLoop res a d 0 = (.error msg, []) := by
  unfold withRetryLoop
  rw [h]
  simp [h4]

theorem withRetryLoop_err_step {α : Type} (res : Nat → Except String α)
    (a d r : Nat) (msg : String) (h : res a = .error msg)
    (h4 : is4xxMessage msg = false) :
    withRetryLoop res a d (r + 1)
      = ((withRetryLoop res (a + 1) (d * 2) r).1,
         d :: (withRetryLoop res (a + 1) (d * 2) r).2) := by
  conv_lhs => unfold withRetryLoop
  rw [h]
  simp [h4]

theorem backoffDelays_cons (d r : Nat) :
    d :: ((List.range r).map fun j => d * 2 * 2 ^ j)
      = (List.range (r + 1)).map fun j => d * 2 ^ j := by
  rw [List.range_succ_eq_map]
  simp only [List.map_cons, List.map_map]
  have hf : ((fun j => d * 2 ^ j) ∘ Nat.succ) = fun j => d * 2 * 2 ^ j := by
    funext j
    simp [Function.comp, pow_succ]
    ring
  rw [hf]
  simp

theorem withRetryLoop_all_err {α : Type} (res : Nat → Except String α)
    (msgs : Nat → String) :
    ∀ (r a d : Nat),
      (∀ i, a ≤ i → i ≤ a + r → res i = .error (msgs i) ∧
        is4xxMessage (msgs i) = false) →
      withRetryLoop res a d r
        = (.error (msgs (a + r)), (List.range r).map fun j => d * 2 ^ j) := by
  intro r
  induction r with
  | zero =>
    intro a d hall
    have h0 := hall a le_rfl (by omega)
    simpa using withRetryLoop_err_exhaust res a d _ h0.1 h0.2
  | succ r ih =>
    intro a d hall
    have h0 := hall a le_rfl (by omega)
    rw [withRetryLoop_err_step res a d r _ h0.1 h0.2,
      ih (a + 1) (d * 2) fun i hi1 hi2 => hall i (by omega) (by omega)]
    have hidx : a + 1 + r = a + (r + 1) := by omega
    rw [hidx, backoffDelays_cons]

theorem withRetryLoop_succeeds {α : Type} (res : Nat → Except String α)
    (msgs : Nat → String) (v : α) :
    ∀ (n a d r : Nat), n ≤ r →
      (∀ i, a ≤ i → i < a + n → res i = .error (msgs i) ∧
        is4xxMessage (msgs i) = false) →
      res (a + n) = .ok v →
      withRetryLoop res a d r = (.ok v, (List.range n).map fun j => d * 2 ^ j) := by
  intro n
  induction n with
  | zero =>
    intro a d r _ _ hok
    simpa using withRetryLoop_ok res a d r v (by simpa using hok)
  | succ n ih =>
    intro a d r hle hall hok
    obtain ⟨r', rfl⟩ : ∃ r', r = r' + 1 := ⟨r - 1, by omega⟩
    have h0 := hall a le_rfl (by omega)
    have hok' : res (a + 1 + n) = .ok v := by
      have hidx : a + 1 + n = a + (n + 1) := by omega
      rw [hidx]; exact hok
    rw [withRetryLoop_err_step res a d r' _ h0.1 h0.2,
      ih (a + 1) (d * 2) r' (by omega)
        (fun i hi1 hi2 => hall i (by omega) (by omega)) hok',
      backoffDelays_cons]

/-- C8: `withRetry` never retries an error whose message carries a
terminal client-error marker (`\b(400|401|403|404)\b`) — such an error
is surfaced immediately, here on the first attempt with no back-off
sleeps; every other error is retried with exponentially doubling delay
starting at the initial delay, up to the configured total attempt count
`maxRetries` (source default 3), a success within the budget returning
its value; when all `maxRetries` attempts fail, the last error is
re-raised to the caller. -/
theorem withRetry_classification {α : Type} :
    (∀ (res : Nat → Except String α) (m d : Nat) (msg : String),
      res 1 = .error msg → is4xxMessage msg = true →
      withRetry res m d = (.error msg, [])) ∧
    (∀ (res : Nat → Except String α) (msgs : Nat → String) (m d k : Nat) (v : α),
      1 ≤ k → k ≤ m →
      (∀ i, 1 ≤ i → i < k → res i = .error (msgs i) ∧
        is4xxMessage (msgs i) = false) →
      res k = .ok v →
      withRetry res m d = (.ok v, (List.range (k - 1)).map fun j => d * 2 ^ j)) ∧
    (∀ (res : Nat → Except String α) (msgs : Nat → String) (m d : Nat),
      1 ≤ m →
      (∀ i, 1 ≤ i → i ≤ m → res i = .error (msgs i) ∧
        is4xxMessage (msgs i) = false) →
      withRetry res m d
        = (.error (msgs m), (List.range (m - 1)).map fun j => d * 2 ^ j)) := by
  refine ⟨?_, ?_, ?_⟩
  · intro res m d msg h h4
    exact withRetryLoop_err4xx res 1 d (m - 1) msg h h4
  · intro res msgs m d k v hk hkm hall hok
    have hok' : res (1 + (k - 1)) = .ok v := by
      have : 1 + (k - 1) = k := by omega
      rw [this]; exact hok
    exact withRetryLoop_succeeds res msgs v (k - 1) 1 d (m - 1) (by omega)
      (fun i hi1 hi2 => hall i hi1 (by omega)) hok'
  · intro res msgs m d hm hall
    have h := withRetryLoop_all_err res msgs (m - 1) 1 d
      fun i hi1 hi2 => hall i hi1 (by omega)
    have hidx : 1 + (m - 1) = m := by omega
    rwa [hidx] at h

/-- Witness for C8 at concrete inputs, with the source defaults
`maxRetries = 3`, `initialDelayMs = 500`: a 404-marked error surfaces at
once with no sleeps; a transient error then a success yields the value
after one 500 ms sleep; three transient errors re-raise the last error
after sleeps of 500 ms and 1000 ms. -/
theorem withRetry_classification_witness :
    withRetry (fun _ => (.error "Request failed with status 404" : Except String Nat))
        3 500 = (.error "Request failed with status 404", []) ∧
    withRetry (fun i => if i = 1 then .error "boom" else (.ok 42 : Except String Nat))
        3 500 = (.ok 42, [500]) ∧
    withRetry (fun _ => (.error "boom" : Except String Nat)) 3 500
      = (.error "boom", [500, 1000]) := by
  refine ⟨?_, ?_, ?_⟩
  · exact (withRetry_classification).1 _ 3 500 _ rfl (by decide)
  · simpa using (withRetry_classification).2.1
      (fun i => if i = 1 then .error "boom" else (.ok 42 : Except String Nat))
      (fun _ => "boom") 3 500 2 42 (by decide) (by decide)
      (by
        intro i hi1 hi2
        have : i = 1 := by omega
        subst this
        exact ⟨rfl, by decide⟩)
      rfl
  · simpa using (withRetry_classification).2.2
      (fun _ => (.error "boom" : Except String Nat)) (fun _ => "boom") 3 500
      (by decide)
      (fun _ _ _ => ⟨rfl, show is4xxMessage "boom" = false by decide⟩)

theorem executedOnApproval_eq (p : PendingNotionAction)
    (hhom : createActionsOf p = p.actions ∨ createActionsOf p = []) :
    executedOnApproval p = p.actions := by
  unfold executedOnApproval
  rcases hhom with h | h <;> rw [h]
  · split_ifs <;> rfl
  · simp

theorem afterApprovalStore_pendingAction (s : KVStore) (c m : String)
    (p : PendingNotionAction) :
    (afterApprovalStore s c m p).pendingAction c m = none := by
  rcases hth : p.threadTs with _ | t <;>
    simp [afterApprovalStore, hth, deletePendingAction, deletePendingCreateRef]

theorem afterApprovalStore_phoneReminderDm (s : KVStore) (c m : String)
    (p : PendingNotionAction) :
    (afterApprovalStore s c m p).phoneReminderDm = s.phoneReminderDm := by
  rcases hth : p.threadTs with _ | t <;>
    simp [afterApprovalStore, hth, deletePendingAction, deletePendingCreateRef]

theorem afterApprovalStore_pmThread (s : KVStore) (c m : String)
    (p : PendingNotionAction) :
    (afterApprovalStore s c m p).pmThread = s.pmThread := by
  rcases hth : p.threadTs with _ | t <;>
    simp [afterApprovalStore, hth, deletePendingAction, deletePendingCreateRef]

/-- C2: starting from a state with one saved PendingAction keyed by a
confirmation message (as the system writes them: homogeneous in
`create_task`), any two approvals in sequence — reaction then button,
button then reaction, either channel twice — execute the recorded
mutations exactly once: the first approval (through either channel)
executes every action of the record and deletes the record and its
thread back-reference, and the second approval finds no PendingAction
and is a no-op that mutates nothing; likewise for a report thread the
first ✅ reaction or report button executes the interpreted proposal and
marks the record `processed`, and a second reaction or button re-reads
the state, finds `processed`, and is a no-op. -/
theorem doubleApproval_executes_once (ipm : String → String → List NAction)
    (today dmChannelId dmTs nowIso : String) :
    (∀ (s : KVStore) (c m u : String) (p : PendingNotionAction),
      s.pendingAction c m = some p →
      s.phoneReminderDm c m = none →
      (∀ pm, s.pmThread today = some pm →
        ¬(pm.state = "pending" ∧ pm.channel = c ∧ pm.ts = m)) →
      (createActionsOf p = p.actions ∨ createActionsOf p = []) →
      handleReactionAdded ipm today dmChannelId dmTs nowIso s
          ⟨"white_check_mark", u, c, m⟩
        = (afterApprovalStore s c m p, p.actions) ∧
      handleTaskActionButton s c m true = (afterApprovalStore s c m p, p.actions) ∧
      (afterApprovalStore s c m p).pendingAction c m = none ∧
      (∀ t, p.threadTs = some t →
        (afterApprovalStore s c m p).pendingCreateRef c t = none) ∧
      handleReactionAdded ipm today dmChannelId dmTs nowIso
          (afterApprovalStore s c m p) ⟨"white_check_mark", u, c, m⟩
        = (afterApprovalStore s c m p, []) ∧
      handleTaskActionButton (afterApprovalStore s c m p) c m true
        = (afterApprovalStore s c m p, [])) ∧
    (∀ (s : KVStore) (pm : PmThreadState) (u : String),
      s.pmThread today = some pm →
      pm.state = "pending" →
      s.pendingAction pm.channel pm.ts = none →
      s.phoneReminderDm pm.channel pm.ts = none →
      handleReactionAdded ipm today dmChannelId dmTs nowIso s
          ⟨"white_check_mark", u, pm.channel, pm.ts⟩
        = (savePmThread s today { pm with state := "processed" },
           ipm pm.proposalJson approvalText) ∧
      handlePmReportButton ipm today s pm.channel pm.ts
        = (savePmThread s today { pm with state := "processed" },
           ipm pm.proposalJson approvalText) ∧
      (savePmThread s today { pm with state := "processed" }).pmThread today
        = some { pm with state := "processed" } ∧
      handleReactionAdded ipm today dmChannelId dmTs nowIso
          (savePmThread s today { pm with state := "processed" })
          ⟨"white_check_mark", u, pm.channel, pm.ts⟩
        = (savePmThread s today { pm with state := "processed" }, []) ∧
      handlePmReportButton ipm today
          (savePmThread s today { pm with state := "processed" }) pm.channel pm.ts
        = (savePmThread s today { pm with state := "processed" }, [])) := by
  have hmem : ("white_check_mark" ∈ PHONE_REACTIONS) = False :=
    eq_false (by decide)
  constructor
  · intro s c m u p hp hdm hpm hhom
    refine ⟨?_, ?_, afterApprovalStore_pendingAction s c m p, ?_, ?_, ?_⟩
    · simp [handleReactionAdded, hmem, hdm, hp, executedOnApproval_eq p hhom,
        afterApprovalStore]
    · simp [handleTaskActionButton, hp, executedOnApproval_eq p hhom,
        afterApprovalStore]
    · intro t ht
      simp [afterApprovalStore, ht, deletePendingAction, deletePendingCreateRef]
    · have hdm2 : (afterApprovalStore s c m p).phoneReminderDm c m = none := by
        rw [afterApprovalStore_phoneReminderDm]; exact hdm
      simp only [handleReactionAdded, hmem, hdm2,
        afterApprovalStore_pendingAction s c m p, afterApprovalStore_pmThread,
        if_false]
      rcases hq : s.pmThread today with _ | pm'
      · simp [hq, hmem]
      · simp [hq, hmem, hpm pm' hq]
    · simp [handleTaskActionButton, afterApprovalStore_pendingAction s c m p]
  · intro s pm u hq hpend hpa hdm
    have hcond : pm.state = "pending" ∧ pm.channel = pm.channel ∧ pm.ts = pm.ts :=
      ⟨hpend, rfl, rfl⟩
    refine ⟨?_, ?_, ?_, ?_, ?_⟩
    · simp [handleReactionAdded, hmem, hdm, hpa, hq, hcond]
    · simp [handlePmReportButton, hq, hpend]
    · simp [savePmThread]
    · have hq2 : (savePmThread s today { pm with state := "processed" }).pmThread
          today = some { pm with state := "processed" } := by simp [savePmThread]
      have hpa2 : (savePmThread s today { pm with state := "processed" }).pendingAction
          pm.channel pm.ts = none := hpa
      have hdm2 : (savePmThread s today { pm with state := "processed" }).phoneReminderDm
          pm.channel pm.ts = none := hdm
      simp [handleReactionAdded, hmem, hdm2, hpa2, hq2]
    · have hq2 : (savePmThread s today { pm with state := "processed" }).pmThread
          today = some { pm with state := "processed" } := by simp [savePmThread]
      simp [handlePmReportButton, hq2]

/-- Witness for C2 at concrete inputs: the first ✅ reaction on the saved
confirmation message executes the recorded mutation and consumes the
record; a second ✅ reaction is a no-op; on the processed report thread a
further report-button click is a no-op. -/
theorem doubleApproval_executes_once_witness :
    (handleReactionAdded (fun _ _ => [⟨"update_due", "pg2", "task B", "2026-02-02"⟩])
        "D0" "dc" "dt" "ni" sampleApprovalStore ⟨"white_check_mark", "U1", "C1", "M1"⟩
      = (afterApprovalStore sampleApprovalStore "C1" "M1" samplePending,
         samplePending.actions)) ∧
    (handleReactionAdded (fun _ _ => [⟨"update_due", "pg2", "task B", "2026-02-02"⟩])
        "D0" "dc" "dt" "ni"
        (afterApprovalStore sampleApprovalStore "C1" "M1" samplePending)
        ⟨"white_check_mark", "U1", "C1", "M1"⟩
      = (afterApprovalStore sampleApprovalStore "C1" "M1" samplePending, [])) ∧
    (handlePmReportButton (fun _ _ => [⟨"update_due", "pg2", "task B", "2026-02-02"⟩])
        "D1" (savePmThread sampleReportStore "D1" { samplePmThread with state := "processed" })
        samplePmThread.channel samplePmThread.ts
      = (savePmThread sampleReportStore "D1" { samplePmThread with state := "processed" },
         [])) := by
  have h1 := (doubleApproval_executes_once
      (fun _ _ => [⟨"update_due", "pg2", "task B", "2026-02-02"⟩])
      "D0" "dc" "dt" "ni").1
    sampleApprovalStore "C1" "M1" "U1" samplePending (by decide) rfl
    (by intro pm h; simp [sampleApprovalStore, emptyStore] at h)
    (Or.inr (by decide))
  have h2 := (doubleApproval_executes_once
      (fun _ _ => [⟨"update_due", "pg2", "task B", "2026-02-02"⟩])
      "D1" "dc" "dt" "ni").2
    sampleReportStore samplePmThread "U2" (by decide) rfl rfl rfl
  exact ⟨h1.1, h1.2.2.2.2.1, h2.2.2.2.2⟩

/-- C1 (amended): during a modify-then-approve sequence on a thread with
a pending proposal, whenever the regenerated proposal takes a cleanup
path of the modify flow — the create-intent branch always, the
update-intent branch when the superseded record held no `create_task`
actions — the stale PendingAction and back-reference are deleted
*before* the regenerated proposal is saved, so at every point of the
store trace at most one live proposal exists for the thread (never two);
the flow starts and ends with exactly one live
PendingAction/back-reference pair (the final one being the fresh pair
under the new confirmation message, the stale record gone), with the
pair count passing through zero between the delete and the re-create,
and the subsequent approval consumes the fresh pair exactly once,
executing the regenerated actions and leaving no live pair.  On the
remaining path — a pending create proposal modified into an
update-intent proposal — the cleanup is skipped and the stale
PendingAction survives the flow alongside the fresh record, leaving two
live proposals for the thread (the back-reference pointing at the new
one). -/
theorem modifyFlow_pair_discipline
    (ipm : String → String → List NAction)
    (today dmChannelId dmTs nowIso2 : String)
    (s : KVStore) (c T oldConfirm newConfirm uid nowIso utext rtext u2 : String)
    (newActs : List NAction) (oldP : PendingNotionAction) (intentCreate : Bool)
    (hp : s.pendingAction c oldConfirm = some oldP)
    (hth : oldP.threadTs = some T)
    (href : s.pendingCreateRef c T = some oldConfirm)
    (huniq : ∀ ts, proposalLive s c ts T = true → ts = oldConfirm)
    (hnew : newConfirm ≠ oldConfirm)
    (hdm : s.phoneReminderDm c newConfirm = none)
    (hpmiss : ∀ pm, s.pmThread today = some pm →
      ¬(pm.state = "pending" ∧ pm.channel = c ∧ pm.ts = newConfirm))
    (hhom : newActs.filter (fun a => a.action = "create_task") = newActs ∨
            newActs.filter (fun a => a.action = "create_task") = []) :
    ((intentCreate = true ∨ createActionsOf oldP = []) →
      (∀ s' ∈ traceStates s
          (modifyFlowOps c T oldConfirm newConfirm uid nowIso utext rtext
            newActs intentCreate oldP),
        ∀ ts₁ ts₂, proposalLive s' c ts₁ T = true →
          proposalLive s' c ts₂ T = true → ts₁ = ts₂) ∧
      pairLive s c T = true ∧
      pairLive (applyOps s
          ((modifyFlowOps c T oldConfirm newConfirm uid nowIso utext rtext
            newActs intentCreate oldP).take 2)) c T = false ∧
      (applyOps s (modifyFlowOps c T oldConfirm newConfirm uid nowIso utext
          rtext newActs intentCreate oldP)).pendingCreateRef c T
        = some newConfirm ∧
      (applyOps s (modifyFlowOps c T oldConfirm newConfirm uid nowIso utext
          rtext newActs intentCreate oldP)).pendingAction c newConfirm
        = some ⟨newActs, uid, nowIso, some T⟩ ∧
      (applyOps s (modifyFlowOps c T oldConfirm newConfirm uid nowIso utext
          rtext newActs intentCreate oldP)).pendingAction c oldConfirm = none ∧
      pairLive (applyOps s (modifyFlowOps c T oldConfirm newConfirm uid nowIso
          utext rtext newActs intentCreate oldP)) c T = true ∧
      handleReactionAdded ipm today dmChannelId dmTs nowIso2
          (applyOps s (modifyFlowOps c T oldConfirm newConfirm uid nowIso utext
            rtext newActs intentCreate oldP))
          ⟨"white_check_mark", u2, c, newConfirm⟩
        = (afterApprovalStore
            (applyOps s (modifyFlowOps c T oldConfirm newConfirm uid nowIso
              utext rtext newActs intentCreate oldP)) c newConfirm
            ⟨newActs, uid, nowIso, some T⟩,
           newActs) ∧
      pairLive (afterApprovalStore
          (applyOps s (modifyFlowOps c T oldConfirm newConfirm uid nowIso utext
            rtext newActs intentCreate oldP)) c newConfirm
          ⟨newActs, uid, nowIso, some T⟩) c T
        = false) ∧
    (intentCreate = false → createActionsOf oldP ≠ [] →
      (applyOps s (modifyFlowOps c T oldConfirm newConfirm uid nowIso utext
          rtext newActs intentCreate oldP)).pendingAction c oldConfirm
        = some oldP ∧
      (applyOps s (modifyFlowOps c T oldConfirm newConfirm uid nowIso utext
          rtext newActs intentCreate oldP)).pendingAction c newConfirm
        = some ⟨newActs, uid, nowIso, some T⟩ ∧
      proposalLive (applyOps s (modifyFlowOps c T oldConfirm newConfirm uid
          nowIso utext rtext newActs intentCreate oldP)) c oldConfirm T
        = true ∧
      proposalLive (applyOps s (modifyFlowOps c T oldConfirm newConfirm uid
          nowIso utext rtext newActs intentCreate oldP)) c newConfirm T
        = true ∧
      (applyOps s (modifyFlowOps c T oldConfirm newConfirm uid nowIso utext
          rtext newActs intentCreate oldP)).pendingCreateRef c T
        = some newConfirm) := by
  have hnew' : oldConfirm ≠ newConfirm := fun h => hnew h.symm
  constructor
  · intro hclean
    have hops : modifyFlowOps c T oldConfirm newConfirm uid nowIso utext rtext
        newActs intentCreate oldP
        = [ .delPA c oldConfirm,
            .delRef c T,
            .putPA c newConfirm ⟨newActs, uid, nowIso, some T⟩,
            .putRef c T newConfirm,
            .putHist c T utext rtext ] := by
      unfold modifyFlowOps
      rw [if_pos hclean]
      rfl
    have hnone : ∀ ts,
        proposalLive (deletePendingAction s c oldConfirm) c ts T = false := by
      intro ts
      by_cases hts : ts = oldConfirm
      · subst hts
        simp [proposalLive, deletePendingAction]
      · have hlook : (deletePendingAction s c oldConfirm).pendingAction c ts
            = s.pendingAction c ts := by simp [deletePendingAction, hts]
        have heq : proposalLive (deletePendingAction s c oldConfirm) c ts T
            = proposalLive s c ts T := by unfold proposalLive; rw [hlook]
        rw [heq]
        cases hb : proposalLive s c ts T
        · rfl
        · exact absurd (huniq ts hb) hts
    have hfinalPA_new : (applyOps s (modifyFlowOps c T oldConfirm newConfirm uid
        nowIso utext rtext newActs intentCreate oldP)).pendingAction c newConfirm
        = some ⟨newActs, uid, nowIso, some T⟩ := by
      rw [hops]
      simp [applyOps, applyOp, savePendingAction, savePendingCreateRef,
        appendMentionHistory]
    have hfinalPA_old : (applyOps s (modifyFlowOps c T oldConfirm newConfirm uid
        nowIso utext rtext newActs intentCreate oldP)).pendingAction c oldConfirm
        = none := by
      rw [hops]
      simp [applyOps, applyOp, savePendingAction, savePendingCreateRef,
        appendMentionHistory, deletePendingAction, deletePendingCreateRef, hnew']
    have hfinalRef : (applyOps s (modifyFlowOps c T oldConfirm newConfirm uid
        nowIso utext rtext newActs intentCreate oldP)).pendingCreateRef c T
        = some newConfirm := by
      rw [hops]
      simp [applyOps, applyOp, savePendingAction, savePendingCreateRef,
        appendMentionHistory, deletePendingAction, deletePendingCreateRef]
    have hdm_pres : (applyOps s (modifyFlowOps c T oldConfirm newConfirm uid
        nowIso utext rtext newActs intentCreate oldP)).phoneReminderDm
        = s.phoneReminderDm := by
      rw [hops]
      simp [applyOps, applyOp, savePendingAction, savePendingCreateRef,
        appendMentionHistory, deletePendingAction, deletePendingCreateRef]
    have hpm_pres : (applyOps s (modifyFlowOps c T oldConfirm newConfirm uid
        nowIso utext rtext newActs intentCreate oldP)).pmThread = s.pmThread := by
      rw [hops]
      simp [applyOps, applyOp, savePendingAction, savePendingCreateRef,
        appendMentionHistory, deletePendingAction, deletePendingCreateRef]
    have hafter : ∀ ts,
        proposalLive (savePendingAction (deletePendingCreateRef
          (deletePendingAction s c oldConfirm) c T) c newConfirm
          ⟨newActs, uid, nowIso, some T⟩) c ts T = true → ts = newConfirm := by
      intro ts h
      by_cases hts : ts = newConfirm
      · exact hts
      · exfalso
        have hlook : (savePendingAction (deletePendingCreateRef
            (deletePendingAction s c oldConfirm) c T) c newConfirm
            ⟨newActs, uid, nowIso, some T⟩).pendingAction c ts
            = (deletePendingAction s c oldConfirm).pendingAction c ts := by
          simp [savePendingAction, deletePendingCreateRef, hts]
        have heq : proposalLive (savePendingAction (deletePendingCreateRef
            (deletePendingAction s c oldConfirm) c T) c newConfirm
            ⟨newActs, uid, nowIso, some T⟩) c ts T
            = proposalLive (deletePendingAction s c oldConfirm) c ts T := by
          unfold proposalLive; rw [hlook]
        rw [heq, hnone ts] at h
        exact Bool.false_ne_true h
    refine ⟨?_, ?_, ?_, hfinalRef, hfinalPA_new, hfinalPA_old, ?_, ?_, ?_⟩
    · intro s' hs'
      rw [hops] at hs'
      simp only [traceStates, applyOp, List.mem_cons,
        List.not_mem_nil, or_false] at hs'
      rcases hs' with rfl | rfl | rfl | rfl | rfl | rfl
      · intro ts₁ ts₂ h1 h2
        rw [huniq ts₁ h1, huniq ts₂ h2]
      · intro ts₁ ts₂ h1 _
        rw [hnone ts₁] at h1
        exact absurd h1 Bool.false_ne_true
      · intro ts₁ ts₂ h1 _
        have h1' : proposalLive (deletePendingAction s c oldConfirm) c ts₁ T
            = true := h1
        rw [hnone ts₁] at h1'
        exact absurd h1' Bool.false_ne_true
      · intro ts₁ ts₂ h1 h2
        rw [hafter ts₁ h1, hafter ts₂ h2]
      · intro ts₁ ts₂ h1 h2
        have h1' := hafter ts₁ h1
        have h2' := hafter ts₂ h2
        rw [h1', h2']
      · intro ts₁ ts₂ h1 h2
        have h1' := hafter ts₁ h1
        have h2' := hafter ts₂ h2
        rw [h1', h2']
    · unfold pairLive
      rw [href]
      simp [hp]
    · rw [hops]
      simp [applyOps, applyOp, pairLive, deletePendingAction,
        deletePendingCreateRef]
    · unfold pairLive
      rw [hfinalRef]
      simp [hfinalPA_new]
    · have hmem : ("white_check_mark" ∈ PHONE_REACTIONS) = False :=
        eq_false (by decide)
      have hdm2 : (applyOps s (modifyFlowOps c T oldConfirm newConfirm uid
          nowIso utext rtext newActs intentCreate oldP)).phoneReminderDm c
          newConfirm = none := by
        rw [hdm_pres]; exact hdm
      have hexec : executedOnApproval ⟨newActs, uid, nowIso, some T⟩ = newActs :=
        executedOnApproval_eq _ hhom
      simp only [handleReactionAdded, hmem, hdm2, hfinalPA_new, if_false, hexec]
      rcases hq : s.pmThread today with _ | pm'
      · simp [hpm_pres, hq, hmem, afterApprovalStore]
      · simp [hpm_pres, hq, hmem, hpmiss pm' hq, afterApprovalStore]
    · simp [afterApprovalStore, pairLive, deletePendingAction,
        deletePendingCreateRef]
  · intro hic hcr
    have hguard : ¬(intentCreate = true ∨ createActionsOf oldP = []) := by
      intro hg
      rcases hg with h1 | h1
      · rw [hic] at h1
        exact Bool.false_ne_true h1
      · exact hcr h1
    have hops2 : modifyFlowOps c T oldConfirm newConfirm uid nowIso utext rtext
        newActs intentCreate oldP
        = [ .putPA c newConfirm ⟨newActs, uid, nowIso, some T⟩,
            .putRef c T newConfirm,
            .putHist c T utext rtext ] := by
      unfold modifyFlowOps
      rw [if_neg hguard]
      rfl
    have hxPA_old : (applyOps s (modifyFlowOps c T oldConfirm newConfirm uid
        nowIso utext rtext newActs intentCreate oldP)).pendingAction c oldConfirm
        = some oldP := by
      rw [hops2]
      simp [applyOps, applyOp, savePendingAction, savePendingCreateRef,
        appendMentionHistory, hnew', hp]
    have hxPA_new : (applyOps s (modifyFlowOps c T oldConfirm newConfirm uid
        nowIso utext rtext newActs intentCreate oldP)).pendingAction c newConfirm
        = some ⟨newActs, uid, nowIso, some T⟩ := by
      rw [hops2]
      simp [applyOps, applyOp, savePendingAction, savePendingCreateRef,
        appendMentionHistory]
    refine ⟨hxPA_old, hxPA_new, ?_, ?_, ?_⟩
    · unfold proposalLive
      rw [hxPA_old]
      simp [hth]
    · unfold proposalLive
      rw [hxPA_new]
      simp
    · rw [hops2]
      simp [applyOps, applyOp, savePendingAction, savePendingCreateRef,
        appendMentionHistory]

/-- Counterexample to C1 as stated, in both directions the code refutes
it.  Never zero: on the cleanup paths the code orders delete before
create, so between the deletion of the stale pair and the save of the
regenerated one the thread has zero live pairs — starting from a store
whose thread "T1" holds one live pair, after the first two operations of
the create-intent modify flow the pair count is zero, not one.  Never
two: when a pending create proposal is modified into an update-intent
proposal, the cleanup guard of part_002 line 918 fails and the stale
record is not deleted — after that flow both the old confirmation
message "M1" and the new one "M9" hold live proposals for thread "T1",
two, not one. -/
theorem modifyFlow_pair_counterexample :
    pairLive sampleApprovalStore "C1" "T1" = true ∧
    pairLive (applyOps sampleApprovalStore
        ((modifyFlowOps "C1" "T1" "M1" "M9" "U1" "n1" "ut" "rt"
          [⟨"create_task", "", "task C", "x"⟩] true samplePending).take 2))
        "C1" "T1" = false ∧
    proposalLive (applyOps sampleCreateStore
        (modifyFlowOps "C1" "T1" "M1" "M9" "U1" "n1" "ut" "rt"
          [⟨"update_sp", "pg1", "task A", "5"⟩] false sampleCreatePending))
        "C1" "M1" "T1" = true ∧
    proposalLive (applyOps sampleCreateStore
        (modifyFlowOps "C1" "T1" "M1" "M9" "U1" "n1" "ut" "rt"
          [⟨"update_sp", "pg1", "task A", "5"⟩] false sampleCreatePending))
        "C1" "M9" "T1" = true ∧
    ("M1" : String) ≠ "M9" := by
  decide

/-- Witness for C1 (amended) at concrete inputs: after a create-intent
modify flow the thread again has exactly one live pair and the approval
then executes the regenerated create action; after a create-to-update
cross flow the stale proposal is still live. -/
theorem modifyFlow_pair_discipline_witness :
    pairLive (applyOps sampleApprovalStore
        (modifyFlowOps "C1" "T1" "M1" "M9" "U1" "n1" "ut" "rt"
          [⟨"create_task", "", "task C", "x"⟩] true samplePending))
        "C1" "T1" = true ∧
    handleReactionAdded (fun _ _ => []) "D0" "dc" "dt" "n2"
        (applyOps sampleApprovalStore
          (modifyFlowOps "C1" "T1" "M1" "M9" "U1" "n1" "ut" "rt"
            [⟨"create_task", "", "task C", "x"⟩] true samplePending))
        ⟨"white_check_mark", "U2", "C1", "M9"⟩
      = (afterApprovalStore
          (applyOps sampleApprovalStore
            (modifyFlowOps "C1" "T1" "M1" "M9" "U1" "n1" "ut" "rt"
              [⟨"create_task", "", "task C", "x"⟩] true samplePending))
          "C1" "M9" ⟨[⟨"create_task", "", "task C", "x"⟩], "U1", "n1", some "T1"⟩,
         [⟨"create_task", "", "task C", "x"⟩]) ∧
    proposalLive (applyOps sampleCreateStore
        (modifyFlowOps "C1" "T1" "M1" "M9" "U1" "n1" "ut" "rt"
          [⟨"update_sp", "pg1", "task A", "5"⟩] false sampleCreatePending))
        "C1" "M1" "T1" = true := by
  have h := modifyFlow_pair_discipline (fun _ _ => []) "D0" "dc" "dt" "n2"
    sampleApprovalStore "C1" "T1" "M1" "M9" "U1" "n1" "ut" "rt" "U2"
    [⟨"create_task", "", "task C", "x"⟩] samplePending true
    (by decide) (by decide) (by decide)
    (by
      intro ts hlv
      by_cases hts : ts = "M1"
      · exact hts
      · exfalso
        have hmiss : sampleApprovalStore.pendingAction "C1" ts = none := by
          simp [sampleApprovalStore, hts]
        simp [proposalLive, hmiss] at hlv)
    (by decide) rfl
    (by intro pm hq; simp [sampleApprovalStore, emptyStore] at hq)
    (Or.inl (by decide))
  have h1 := h.1 (Or.inl rfl)
  have h2 := modifyFlow_pair_discipline (fun _ _ => []) "D0" "dc" "dt" "n2"
    sampleCreateStore "C1" "T1" "M1" "M9" "U1" "n1" "ut" "rt" "U2"
    [⟨"update_sp", "pg1", "task A", "5"⟩] sampleCreatePending false
    (by decide) (by decide) (by decide)
    (by
      intro ts hlv
      by_cases hts : ts = "M1"
      · exact hts
      · exfalso
        have hmiss : sampleCreateStore.pendingAction "C1" ts = none := by
          simp [sampleCreateStore, hts]
        simp [proposalLive, hmiss] at hlv)
    (by decide) rfl
    (by intro pm hq; simp [sampleCreateStore, emptyStore] at hq)
    (Or.inr (by decide))
  exact ⟨h1.2.2.2.2.2.2.1, h1.2.2.2.2.2.2.2.1, (h2.2 rfl (by decide)).2.2.1⟩

/-- C6 (amended): when the external classifier throws while the record
is still `pending`, the gate fails open — the reply is treated as
sufficient, appended to the reply log, and the state set to `replied`;
when the classifier throws for a record already `replied`, the reply is
treated as carrying no additional content and is not appended, and the
handler posts the casual acknowledgement (not the ask-for-more-detail
prompt). -/
theorem handleAssigneeReply_classifier_failure (s : KVStore)
    (channel threadTs text user nowIso : String) (st : ThreadState)
    (hst : s.threadState channel threadTs = some st) :
    (st.state = "pending" →
      handleAssigneeReply (.error ()) s channel threadTs text user nowIso
        = (saveThreadState (appendReply s channel threadTs ⟨text, user, nowIso⟩)
            channel threadTs { st with state := "replied" },
           some .confirmedThanks)) ∧
    (st.state = "replied" →
      handleAssigneeReply (.error ()) s channel threadTs text user nowIso
        = (s, some .casualThanks)) := by
  constructor
  · intro hpend
    simp [handleAssigneeReply, hst, hpend]
  · intro hrep
    simp [handleAssigneeReply, hst, hrep]

/-- Counterexample to C6 as stated: the claim says that on classifier
failure in an already-`replied` thread the handler "falls back to asking
for more detail"; on the code, that path posts the casual-thanks
acknowledgement, not the ask-for-more-detail prompt. -/
theorem handleAssigneeReply_failure_counterexample :
    handleAssigneeReply (.error ()) sampleRepliedThreadStore "C3" "T3"
        "done stuff" "U3" "n3"
      = (sampleRepliedThreadStore, some .casualThanks) ∧
    ReplyMsg.casualThanks ≠ ReplyMsg.askMoreDetail := by
  constructor
  · simp [handleAssigneeReply, sampleRepliedThreadStore, sampleRepliedThread,
      emptyStore]
  · decide

/-- Witness for C6 (amended) at concrete inputs: classifier failure on a
pending record appends and flips to `replied`; classifier failure on a
replied record leaves the store alone and answers casually. -/
theorem handleAssigneeReply_classifier_failure_witness :
    handleAssigneeReply (.error ()) samplePendingThreadStore "C3" "T4"
        "msg" "U3" "n3"
      = (saveThreadState
          (appendReply samplePendingThreadStore "C3" "T4" ⟨"msg", "U3", "n3"⟩)
          "C3" "T4" { samplePendingThread with state := "replied" },
         some .confirmedThanks) ∧
    handleAssigneeReply (.error ()) sampleRepliedThreadStore "C3" "T3"
        "msg" "U3" "n3"
      = (sampleRepliedThreadStore, some .casualThanks) := by
  have h1 := (handleAssigneeReply_classifier_failure samplePendingThreadStore
    "C3" "T4" "msg" "U3" "n3" samplePendingThread (by decide)).1 rfl
  have h2 := (handleAssigneeReply_classifier_failure sampleRepliedThreadStore
    "C3" "T3" "msg" "U3" "n3" sampleRepliedThread (by decide)).2 rfl
  exact ⟨h1, h2⟩

/-- C7 (amended): within `handleAssigneeReply` the pending → replied
transition fires exactly per the quality gate (with its fail-open error
branch, see C6): a gate-rejected reply leaves the record pending and
unappended and asks for more detail; a gate-accepted reply is appended
and flips the state; once `replied`, further replies are still gated and
appended only when substantive, but the stored state never changes
again.  However, a message that at-mentions the orchestrator inside a
tracked thread takes the thread-state step of `handleMention`, which marks
the record replied and appends the reply without consulting the gate. -/
theorem threadState_transition_discipline (s : KVStore)
    (channel threadTs text user nowIso : String) (st : ThreadState)
    (hst : s.threadState channel threadTs = some st) :
    (st.state ≠ "replied" →
      handleAssigneeReply (.ok false) s channel threadTs text user nowIso
        = (s, some .askMoreDetail)) ∧
    (st.state ≠ "replied" →
      handleAssigneeReply (.ok true) s channel threadTs text user nowIso
        = (saveThreadState (appendReply s channel threadTs ⟨text, user, nowIso⟩)
            channel threadTs { st with state := "replied" },
           some .confirmedThanks)) ∧
    (st.state = "replied" → ∀ verdict : Bool,
      (handleAssigneeReply (.ok verdict) s channel threadTs text user
          nowIso).1.threadState channel threadTs = some st ∧
      (handleAssigneeReply (.ok verdict) s channel threadTs text user
          nowIso).1.replyLog channel threadTs
        = s.replyLog channel threadTs ++
            (if verdict then [⟨text, user, nowIso⟩] else [])) ∧
    handleMentionThreadStateStep s channel threadTs text user nowIso
      = saveThreadState (appendReply s channel threadTs ⟨text, user, nowIso⟩)
          channel threadTs { st with state := "replied" } := by
  refine ⟨?_, ?_, ?_, ?_⟩
  · intro hne
    simp [handleAssigneeReply, hst, hne]
  · intro hne
    simp [handleAssigneeReply, hst, hne]
  · intro hrep verdict
    cases verdict
    · simp [handleAssigneeReply, hst, hrep]
    · constructor
      · simp [handleAssigneeReply, hst, hrep, appendReply]
      · simp [handleAssigneeReply, hst, hrep, appendReply]
  · simp [handleMentionThreadStateStep, hst]

/-- Counterexample to C7 as stated: the claim says the pending → replied
transition fires *only* when the quality gate judges the reply
sufficiently specific; on the code, the thread-state step of `handleMention`
(src/unnamed/part_002 lines 684-696) flips a pending record to `replied`
and appends the message as a reply without any quality-gate call — here
a pending record becomes `replied` though no classifier ran. -/
theorem threadState_gate_bypass_counterexample :
    samplePendingThread.state = "pending" ∧
    (handleMentionThreadStateStep samplePendingThreadStore "C3" "T4" "hi"
        "U3" "n3").threadState "C3" "T4"
      = some { samplePendingThread with state := "replied" } ∧
    (handleMentionThreadStateStep samplePendingThreadStore "C3" "T4" "hi"
        "U3" "n3").replyLog "C3" "T4" = [⟨"hi", "U3", "n3"⟩] := by
  refine ⟨rfl, ?_, ?_⟩ <;> decide

/-- Witness for C7 (amended) at concrete inputs: a gate-rejected reply
leaves the pending record untouched; the mention path flips it with no
gate. -/
theorem threadState_transition_discipline_witness :
    handleAssigneeReply (.ok false) samplePendingThreadStore "C3" "T4"
        "hm" "U3" "n3" = (samplePendingThreadStore, some .askMoreDetail) ∧
    handleMentionThreadStateStep samplePendingThreadStore "C3" "T4" "hm"
        "U3" "n3"
      = saveThreadState
          (appendReply samplePendingThreadStore "C3" "T4" ⟨"hm", "U3", "n3"⟩)
          "C3" "T4" { samplePendingThread with state := "replied" } := by
  have h := threadState_transition_discipline samplePendingThreadStore
    "C3" "T4" "hm" "U3" "n3" samplePendingThread (by decide)
  exact ⟨h.1 (by decide), h.2.2.2⟩

/-- C9 (amended): on the interactions endpoint, a request whose
timestamp differs from the current time by more than 300 seconds is
rejected regardless of signature validity, and a request whose
HMAC-SHA256 signature over `"v0:{timestamp}:{body}"` does not match is
rejected; on the events endpoint the same holds for parsed requests that
are neither `url_verification` challenges nor gateway retry
redeliveries (those two are answered/dropped earlier); every rejection
happens before any state-store mutation — the store is returned
untouched. -/
theorem webhook_prelude_rejection (hmac : String → String → String) (now : Int)
    (dispatch : KVStore → KVStore) (s : KVStore) :
    (∀ (r : InteractionsRequest) (secret : Option String),
      timestampStale now r.timestampParsed = true →
      handleSlackInteractions hmac secret now dispatch s r = (.staleReject, s)) ∧
    (∀ (r : InteractionsRequest) (sec : String),
      timestampStale now r.timestampParsed = false →
      signatureMatches hmac sec r.timestampHeader r.body r.signatureHeader
        = false →
      handleSlackInteractions hmac (some sec) now dispatch s r
        = (.badSignature, s)) ∧
    (∀ (r : EventsRequest) (p : EventsPayload) (secret : Option String),
      r.parsedEvents = some p → p.ptype ≠ "url_verification" →
      retryNumPositive r.retryNumParsed = false →
      timestampStale now r.timestampParsed = true →
      handleSlackEvents hmac secret now dispatch s r = (.staleReject, s)) ∧
    (∀ (r : EventsRequest) (p : EventsPayload) (sec : String),
      r.parsedEvents = some p → p.ptype ≠ "url_verification" →
      retryNumPositive r.retryNumParsed = false →
      timestampStale now r.timestampParsed = false →
      signatureMatches hmac sec r.timestampHeader r.body r.signatureHeader
        = false →
      handleSlackEvents hmac (some sec) now dispatch s r = (.badSignature, s)) := by
  refine ⟨?_, ?_, ?_, ?_⟩
  · intro r secret hstale
    simp [handleSlackInteractions, hstale]
  · intro r sec hfresh hsig
    simp [handleSlackInteractions, hfresh, hsig]
  · intro r p secret hparse hty hretry hstale
    simp [handleSlackEvents, hparse, hty, hretry, hstale]
  · intro r p sec hparse hty hretry hfresh hsig
    simp [handleSlackEvents, hparse, hty, hretry, hfresh, hsig]

/-- Counterexample to C9 as stated: the claim demands that *every*
request to the event endpoint whose timestamp is more than 300 seconds
off is rejected regardless of signature validity; on the code, a
`url_verification` request is answered with its challenge before the
replay and signature checks run — here a request 301 seconds stale with
a non-matching signature is accepted with a 200 challenge response (the
store is still untouched). -/
theorem webhook_stale_challenge_counterexample :
    timestampStale 301 sampleChallengeRequest.timestampParsed = true ∧
    handleSlackEvents (fun _ _ => "X") (some "secret") 301 id emptyStore
        sampleChallengeRequest = (.challengeAck "chal", emptyStore) ∧
    signatureMatches (fun _ _ => "X") "secret"
        sampleChallengeRequest.timestampHeader sampleChallengeRequest.body
        sampleChallengeRequest.signatureHeader = false ∧
    EventsOutcome.challengeAck "chal" ≠ .staleReject ∧
    EventsOutcome.challengeAck "chal" ≠ .badSignature := by
  refine ⟨by decide, rfl, by decide, by decide, by decide⟩

/-- Witness for C9 (amended) at concrete inputs: a stale interactions
request and a stale ordinary events request are rejected with the store
untouched, and with fresh timestamps a wrong signature is rejected on
both endpoints. -/
theorem webhook_prelude_rejection_witness :
    handleSlackInteractions (fun _ _ => "X") (some "sec") 400 id emptyStore
        ⟨"body", "0", some 0, "sig", some "pl", true⟩ = (.staleReject, emptyStore) ∧
    handleSlackInteractions (fun _ _ => "X") (some "sec") 100 id emptyStore
        ⟨"body", "0", some 0, "sig", some "pl", true⟩ = (.badSignature, emptyStore) ∧
    handleSlackEvents (fun _ _ => "X") (some "sec") 400 id emptyStore
        ⟨"b", "0", some 0, "sig", none, some ⟨"event_callback", ""⟩⟩
      = (.staleReject, emptyStore) ∧
    handleSlackEvents (fun _ _ => "X") (some "sec") 100 id emptyStore
        ⟨"b", "0", some 0, "sig", none, some ⟨"event_callback", ""⟩⟩
      = (.badSignature, emptyStore) := by
  refine ⟨?_, ?_, ?_, ?_⟩
  · exact (webhook_prelude_rejection (fun _ _ => "X") 400 id emptyStore).1
      ⟨"body", "0", some 0, "sig", some "pl", true⟩ (some "sec") (by decide)
  · exact (webhook_prelude_rejection (fun _ _ => "X") 100 id emptyStore).2.1
      ⟨"body", "0", some 0, "sig", some "pl", true⟩ "sec" (by decide) (by decide)
  · exact (webhook_prelude_rejection (fun _ _ => "X") 400 id emptyStore).2.2.1
      ⟨"b", "0", some 0, "sig", none, some ⟨"event_callback", ""⟩⟩
      ⟨"event_callback", ""⟩ (some "sec") rfl (by decide) (by decide) (by decide)
  · exact (webhook_prelude_rejection (fun _ _ => "X") 100 id emptyStore).2.2.2
      ⟨"b", "0", some 0, "sig", none, some ⟨"event_callback", ""⟩⟩
      ⟨"event_callback", ""⟩ "sec" rfl (by decide) (by decide) (by decide)
      (by decide)

end NotionPmo
